import Mathlib

/-!
Verification of the notification-cache subsystem of the ktmb-scraper
repository, embedded shallowly from `src/utils/notification_cache.py`
(class `NotificationCache`) and `src/utils/config.py` (enum `Direction`).

Modelling conventions:
* `datetime` values are modelled as integers (an abstract linear timeline);
  `isoformat`/`fromisoformat` round-trip a timestamp, so an ISO timestamp
  string is identified with its integer value.  `timedelta(hours=h)` adds
  `h * 3600` on this timeline.
* A raw JSON value read back from the cache file may lack the
  `expires_at` field or hold an unparseable string; the field is modelled
  as `Option (Option Int)`: `none` = field absent (lookup raises
  `KeyError`), `some none` = present but unparseable
  (`datetime.fromisoformat` raises `ValueError`), `some (some t)` =
  parses to the time `t`.
* `_generate_cache_key` serialises a canonical structure with
  `json.dumps(..., sort_keys=True)` and hashes it with MD5.  The
  serialisation is injective on the canonical structure and the hash is
  treated as collision-free, so the key is modelled by the canonical
  structure (`KeyData`) itself: two keys are equal exactly when the
  canonical structures are equal.
* Python's `sorted` with a key function is a stable sort; it is modelled
  by insertion sort on the same key, which is also stable, and string
  comparison is code-point lexicographic (`lexLe` on `String.data`).
* A Python `dict` is modelled as an association list with unique keys;
  `del d[k]` removes the (first) binding of `k`, `d[k] = v` overwrites
  an existing binding or appends a new one.
* Functions that can raise return `Except CacheError`; the extra `Bool`
  component returned by the mutating operations records whether
  `_save_cache` was invoked (a flush of the store was attempted) before
  the operation returned.
-/

namespace KTMBCache

/-- The `Direction` enum from `src/utils/config.py`. -/
inductive Direction
  | JB_TO_SG
  | SG_TO_JB
deriving DecidableEq

/-- The `.value` of a `Direction` member (the enum is a `str` enum). -/
def Direction.value : Direction → String
  | .JB_TO_SG => "JB_TO_SG"
  | .SG_TO_JB => "SG_TO_JB"

/-- `NotificationCache._get_opposite_direction`. -/
def get_opposite_direction (d : Direction) : Direction :=
  if d = Direction.SG_TO_JB then Direction.JB_TO_SG else Direction.SG_TO_JB

/-- One train dict inside `result["available_trains"]` / `result["return_trains"]`.
The code accesses the fields with `.get`, so each may be absent. -/
structure Train where
  train_number : Option String
  departure_time : Option String
  available_seats : Option Int
deriving DecidableEq

/-- The search-result dict consumed by the cache, after applying the
defaults of `result.get("success", False)`, `result.get("available_trains", [])`
and `result.get("return_trains", [])`. -/
structure SearchResult where
  success : Bool
  available_trains : List Train
  return_trains : List Train
deriving DecidableEq

/-- The slice of `ScraperSettings` (from `src/utils/config.py`) read by the
cache: `depart_date` (its `isoformat()` string), optional `return_date`,
and `direction`. -/
structure ScraperSettings where
  direction : Direction
  depart_date : String
  return_date : Option String
deriving DecidableEq

/-- One train signature built by `_generate_cache_key` / `add_to_cache`:
`{train_number, departure_time, available_seats, direction}`. -/
structure TrainSignature where
  train_number : Option String
  departure_time : Option String
  available_seats : Int
  direction : Option String
deriving DecidableEq

/-- Code-point lexicographic comparison of character lists: the order
Python uses to compare strings. -/
def lexLe : List Char → List Char → Bool
  | [], _ => true
  | _ :: _, [] => false
  | a :: as, b :: bs => if a < b then true else if b < a then false else lexLe as bs

/-- The sort key of `sorted(trains, key=lambda t: t.get("train_number", ""))`,
as a character list. -/
def sortKey (t : Train) : List Char := (t.train_number.getD "").data

/-- The comparison underlying Python's `sorted` on the train-number key. -/
def keyLe (a b : Train) : Prop := lexLe (sortKey a) (sortKey b) = true

instance : DecidableRel keyLe := fun a b => by unfold keyLe; infer_instance

/-- Python's `sorted(trains, key=lambda t: t.get("train_number", ""))`:
a stable sort on the train-number key, modelled by insertion sort. -/
def sortTrains (l : List Train) : List Train := List.insertionSort keyLe l

/-- Render one train as the signature dict built in `_generate_cache_key`
and `add_to_cache` (`available_seats` defaults to 0 via `.get`). -/
def mkSignature (dir : Option String) (t : Train) : TrainSignature :=
  { train_number := t.train_number
    departure_time := t.departure_time
    available_seats := t.available_seats.getD 0
    direction := dir }

/-- The canonical structure `key_data` that `_generate_cache_key` serialises
and hashes; it stands for the cache key itself (see the header comment). -/
structure KeyData where
  date : String
  direction : String
  return_date : Option String
  trains : List TrainSignature
deriving DecidableEq

/-- `NotificationCache._generate_cache_key`: sorts both train lists by
train number, tags outbound signatures with the search direction and
return signatures with the opposite direction, sets `return_date` to the
settings' return date only when return trains are present (else `null`),
and keys on `(date, direction, return_date, trains)`. -/
def generate_cache_key (result : SearchResult) (search_settings : ScraperSettings) : KeyData :=
  let depart_date := search_settings.depart_date
  let direction := search_settings.direction.value
  let available_trains := result.available_trains
  let return_trains := result.return_trains
  let outbound_direction := search_settings.direction.value
  let return_direction : Option String :=
    if return_trains = [] then none
    else some (get_opposite_direction search_settings.direction).value
  let outSigs := (sortTrains available_trains).map (mkSignature (some outbound_direction))
  let (return_date, retSigs) :=
    if return_trains = [] then ((none : Option String), ([] : List TrainSignature))
    else (search_settings.return_date, (sortTrains return_trains).map (mkSignature return_direction))
  { date := depart_date
    direction := direction
    return_date := return_date
    trains := outSigs ++ retSigs }

/-- A stored cache entry, as read back from JSON.  The two timestamp
fields use the raw `Option (Option Int)` encoding from the header
comment (`add_to_cache` always writes them as `some (some _)`). -/
structure CacheEntry where
  date : String
  direction : String
  return_date : Option String
  trains : List TrainSignature
  notified_at : Option (Option Int)
  expires_at : Option (Option Int)
deriving DecidableEq

/-- The in-memory store `self.cache_data`: a version string and the
`entries` dict (association list with unique keys). -/
structure CacheStore where
  cache_version : String
  entries : List (KeyData × CacheEntry)
deriving DecidableEq

/-- The empty store `{"cache_version": "1.0", "entries": {}}`. -/
def default_cache : CacheStore := { cache_version := "1.0", entries := [] }

/-- Dict lookup `entries[k]` (first binding of `k`). -/
def lookupEntry (k : KeyData) : List (KeyData × CacheEntry) → Option CacheEntry
  | [] => none
  | p :: ps => if p.1 = k then some p.2 else lookupEntry k ps

/-- Dict deletion `del entries[k]` (removes the binding of `k`). -/
def removeEntry (k : KeyData) : List (KeyData × CacheEntry) → List (KeyData × CacheEntry)
  | [] => []
  | p :: ps => if p.1 = k then ps else p :: removeEntry k ps

/-- Dict assignment `entries[k] = v` (overwrite or append). -/
def setEntry (k : KeyData) (v : CacheEntry) :
    List (KeyData × CacheEntry) → List (KeyData × CacheEntry)
  | [] => [(k, v)]
  | p :: ps => if p.1 = k then (k, v) :: ps else p :: setEntry k v ps

/-- Exceptions that the cache code can raise. -/
inductive CacheError
  | keyError
  | valueError
deriving DecidableEq

/-- `datetime.fromisoformat(entry["expires_at"])` on a raw entry: raises
`KeyError` when the field is absent and `ValueError` when it does not
parse. -/
def parseExpiresAt (e : CacheEntry) : Except CacheError Int :=
  match e.expires_at with
  | none => .error .keyError
  | some none => .error .valueError
  | some (some t) => .ok t

/-- Does the entry's `expires_at` field parse as a timestamp? -/
def entryParses (e : CacheEntry) : Bool :=
  match e.expires_at with
  | some (some _) => true
  | _ => false

/-- `NotificationCache.should_send_notification`, with the current wall
clock `now` passed explicitly.  Returns the decision, the resulting
in-memory store, and whether `_save_cache` was called (it never is on
this path). -/
def should_send_notification (now : Int) (result : SearchResult)
    (search_settings : ScraperSettings) (cache : CacheStore) :
    Except CacheError (Bool × CacheStore × Bool) :=
  if result.success = false then .ok (true, cache, false)
  else if result.available_trains = [] ∧ result.return_trains = [] then
    .ok (false, cache, false)
  else
    let cache_key := generate_cache_key result search_settings
    match lookupEntry cache_key cache.entries with
    | some entry =>
      match parseExpiresAt entry with
      | .error e => .error e
      | .ok expires_at =>
        if now < expires_at then .ok (false, cache, false)
        else .ok (true, { cache with entries := removeEntry cache_key cache.entries }, false)
    | none => .ok (true, cache, false)

/-- `NotificationCache.add_to_cache`, with `now` and the configured
`expiry_hours` passed explicitly.  The train signatures are flattened in
input order (this method does not sort).  Returns the new store and
whether `_save_cache` was called (always). -/
def add_to_cache (now expiry_hours : Int) (result : SearchResult)
    (search_settings : ScraperSettings) (cache : CacheStore) : CacheStore × Bool :=
  let cache_key := generate_cache_key result search_settings
  let available_trains := result.available_trains
  let return_trains := result.return_trains
  let outbound_direction := search_settings.direction.value
  let return_direction : Option String :=
    if return_trains = [] then none
    else some (get_opposite_direction search_settings.direction).value
  let trains_data :=
    available_trains.map (mkSignature (some outbound_direction))
      ++ return_trains.map (mkSignature return_direction)
  let expires_at := now + expiry_hours * 3600
  let entry : CacheEntry :=
    { date := search_settings.depart_date
      direction := search_settings.direction.value
      return_date := search_settings.return_date
      trains := trains_data
      notified_at := some (some now)
      expires_at := some (some expires_at) }
  ({ cache with entries := setEntry cache_key entry cache.entries }, true)

/-- The per-entry test of `cleanup_expired`: an entry is collected as
expired when `now >= fromisoformat(entry["expires_at"])`, or when that
expression raises (absent or unparseable field). -/
def entryExpired (now : Int) (e : CacheEntry) : Bool :=
  match e.expires_at with
  | some (some t) => t ≤ now
  | _ => true

/-- `NotificationCache.cleanup_expired`, with `now` passed explicitly.
The method collects the expired keys and deletes them from the dict,
which (keys being unique) leaves exactly the non-expired bindings; it
calls `_save_cache` exactly when at least one key was collected.  The
Python function is annotated `-> None` and has no `return` statement;
its returned value is modelled as `Option Nat` (always `none`) so that
it can be compared with the spec's integer-count contract. -/
def cleanup_expired (now : Int) (cache : CacheStore) : Option Nat × CacheStore × Bool :=
  let expired_keys := (cache.entries.filter (fun p => entryExpired now p.2)).map (·.1)
  let entries := cache.entries.filter (fun p => !entryExpired now p.2)
  (none, { cache with entries := entries }, !(expired_keys = []))

/-- `NotificationCache._load_cache` before its `try/except`: the file
content is `none` when the file does not exist (the `else` branch
returns a fresh store without raising), `some none` when reading or
JSON-parsing it raises, and `some (some data)` when it parses. -/
def load_cache_attempt (file : Option (Option CacheStore)) : Except Unit CacheStore :=
  match file with
  | none => .ok default_cache
  | some none => .error ()
  | some (some data) => .ok data

/-- `NotificationCache._load_cache`: any exception is caught and a fresh
empty store is returned. -/
def load_cache (file : Option (Option CacheStore)) : CacheStore :=
  match load_cache_attempt file with
  | .ok data => data
  | .error _ => default_cache

end KTMBCache

namespace KTMBCache

deriving instance DecidableEq for Except

theorem lexLe_total : ∀ (a b : List Char), lexLe a b = true ∨ lexLe b a = true
  | [], _ => Or.inl rfl
  | _ :: _, [] => Or.inr rfl
  | a :: as, b :: bs => by
    rcases lt_trichotomy a b with h | h | h
    · left; simp [lexLe, h]
    · subst h
      rcases lexLe_total as bs with ih | ih
      · left; simp [lexLe, lt_irrefl, ih]
      · right; simp [lexLe, lt_irrefl, ih]
    · right; simp [lexLe, h]

theorem lexLe_trans : ∀ (a b c : List Char),
    lexLe a b = true → lexLe b c = true → lexLe a c = true
  | [], _, _, _, _ => rfl
  | _ :: _, [], _, h, _ => by simp [lexLe] at h
  | _ :: _, _ :: _, [], _, h => by simp [lexLe] at h
  | a :: as, b :: bs, c :: cs, h1, h2 => by
    rcases lt_trichotomy a b with hab | hab | hab
    · rcases lt_trichotomy b c with hbc | hbc | hbc
      · simp [lexLe, lt_trans hab hbc]
      · subst hbc; simp [lexLe, hab]
      · simp [lexLe, hbc, not_lt_of_gt hbc] at h2
    · subst hab
      rcases lt_trichotomy a c with hac | hac | hac
      · simp [lexLe, hac]
      · subst hac
        simp only [lexLe, lt_irrefl, if_false] at h1 h2 ⊢
        exact lexLe_trans as bs cs h1 h2
      · simp [lexLe, hac, not_lt_of_gt hac] at h2
    · simp [lexLe, hab, not_lt_of_gt hab] at h1

theorem lexLe_antisymm : ∀ (a b : List Char),
    lexLe a b = true → lexLe b a = true → a = b
  | [], [], _, _ => rfl
  | [], _ :: _, _, h => by simp [lexLe] at h
  | _ :: _, [], h, _ => by simp [lexLe] at h
  | a :: as, b :: bs, h1, h2 => by
    rcases lt_trichotomy a b with hab | hab | hab
    · simp [lexLe, hab, not_lt_of_gt hab] at h2
    · subst hab
      simp only [lexLe, lt_irrefl, if_false] at h1 h2
      rw [lexLe_antisymm as bs h1 h2]
    · simp [lexLe, hab, not_lt_of_gt hab] at h1

theorem sortTrains_perm (l : List Train) : (sortTrains l).Perm l :=
  List.perm_insertionSort keyLe l

theorem sortTrains_sorted (l : List Train) : (sortTrains l).Sorted keyLe := by
  haveI : IsTotal Train keyLe := ⟨fun a b => lexLe_total (sortKey a) (sortKey b)⟩
  haveI : IsTrans Train keyLe :=
    ⟨fun a b c h1 h2 => lexLe_trans (sortKey a) (sortKey b) (sortKey c) h1 h2⟩
  exact List.sorted_insertionSort keyLe l

/-- Trains whose sort keys are pairwise distinct (the realistic case: train
numbers within a result are unique). -/
def distinctKeys (l : List Train) : Prop :=
  l.Pairwise (fun a b => sortKey a ≠ sortKey b)

theorem sortTrains_eq_of_perm {l l' : List Train} (hp : l.Perm l')
    (hd : distinctKeys l) : sortTrains l = sortTrains l' := by
  have hsym : ∀ {x y : Train}, sortKey x ≠ sortKey y → sortKey y ≠ sortKey x :=
    fun h => Ne.symm h
  have hdl : List.Pairwise (fun a b => sortKey a ≠ sortKey b) (sortTrains l) :=
    (List.Perm.pairwise_iff hsym (sortTrains_perm l)).mpr hd
  have hd' : distinctKeys l' := (List.Perm.pairwise_iff hsym hp).mp hd
  have hdl' : List.Pairwise (fun a b => sortKey a ≠ sortKey b) (sortTrains l') :=
    (List.Perm.pairwise_iff hsym (sortTrains_perm l')).mpr hd'
  haveI : IsAntisymm Train (fun a b => keyLe a b ∧ sortKey a ≠ sortKey b) :=
    ⟨fun a b h1 h2 =>
      absurd (lexLe_antisymm (sortKey a) (sortKey b) h1.1 h2.1) h1.2⟩
  have hperm : (sortTrains l).Perm (sortTrains l') :=
    (sortTrains_perm l).trans (hp.trans (sortTrains_perm l').symm)
  exact List.eq_of_perm_of_sorted hperm
    ((sortTrains_sorted l).and hdl) ((sortTrains_sorted l').and hdl')

theorem lookupEntry_mem : ∀ (l : List (KeyData × CacheEntry)) (k : KeyData) (e : CacheEntry),
    lookupEntry k l = some e → (k, e) ∈ l
  | [], k, e, h => by simp [lookupEntry] at h
  | p :: ps, k, e, h => by
    rw [lookupEntry] at h
    by_cases hp : p.1 = k
    · rw [if_pos hp] at h
      injection h with h
      subst hp; subst h
      exact List.mem_cons_self _ _
    · rw [if_neg hp] at h
      exact List.mem_cons_of_mem _ (lookupEntry_mem ps k e h)

end KTMBCache

namespace KTMBCache

/-- Sample one-way settings (Woodlands to JB Sentral, no return date). -/
def exSettings : ScraperSettings :=
  { direction := .SG_TO_JB, depart_date := "2025-01-01", return_date := none }

/-- Sample settings differing from `exSettings` only in `return_date`. -/
def exSettingsAlt : ScraperSettings :=
  { direction := .SG_TO_JB, depart_date := "2025-01-01", return_date := some "2025-02-02" }

/-- Sample round-trip settings. -/
def exSettingsRT : ScraperSettings :=
  { direction := .SG_TO_JB, depart_date := "2025-01-01", return_date := some "2025-01-05" }

/-- Sample train with number T1. -/
def exTrainA : Train :=
  { train_number := some "T1", departure_time := some "08:30", available_seats := some 5 }

/-- Sample train with number T2. -/
def exTrainB : Train :=
  { train_number := some "T2", departure_time := some "09:30", available_seats := some 3 }

/-- Sample successful one-way result with one train. -/
def exResult : SearchResult :=
  { success := true, available_trains := [exTrainA], return_trains := [] }

/-- Sample successful round-trip result. -/
def exResultRT : SearchResult :=
  { success := true, available_trains := [exTrainA], return_trains := [exTrainB] }

/-- Sample failed result. -/
def exFailResult : SearchResult :=
  { success := false, available_trains := [], return_trains := [] }

/-- Sample successful result with no availability in either list. -/
def exEmptyResult : SearchResult :=
  { success := true, available_trains := [], return_trains := [] }

/-- Entry whose `expires_at` field is absent (raw JSON corruption). -/
def exCorruptEntry : CacheEntry :=
  { date := "2025-01-01", direction := "SG_TO_JB", return_date := none, trains := []
    notified_at := none, expires_at := none }

/-- Entry that expired at time 5. -/
def exExpiredEntry : CacheEntry :=
  { date := "2025-01-01", direction := "SG_TO_JB", return_date := none, trains := []
    notified_at := some (some 0), expires_at := some (some 5) }

/-- Entry that stays live until time 100. -/
def exLiveEntry : CacheEntry :=
  { date := "2025-01-01", direction := "SG_TO_JB", return_date := none, trains := []
    notified_at := some (some 0), expires_at := some (some 100) }

/-- A store holding an expired entry under the key of `(exResult, exSettings)`. -/
def exExpiredStore : CacheStore :=
  { cache_version := "1.0"
    entries := [(generate_cache_key exResult exSettings, exExpiredEntry)] }

/-- A store holding a corrupt entry under the key of `(exResult, exSettings)`. -/
def exCorruptStore : CacheStore :=
  { cache_version := "1.0"
    entries := [(generate_cache_key exResult exSettings, exCorruptEntry)] }

/-- Three arbitrary distinct keys for cleanup scenarios. -/
def exKey1 : KeyData := { date := "a", direction := "SG_TO_JB", return_date := none, trains := [] }

/-- Second arbitrary key. -/
def exKey2 : KeyData := { date := "b", direction := "SG_TO_JB", return_date := none, trains := [] }

/-- Third arbitrary key. -/
def exKey3 : KeyData := { date := "c", direction := "SG_TO_JB", return_date := none, trains := [] }

/-- A store with one expired, one corrupt and one live entry. -/
def exStore3 : CacheStore :=
  { cache_version := "1.0"
    entries := [(exKey1, exExpiredEntry), (exKey2, exCorruptEntry), (exKey3, exLiveEntry)] }

/-- C7: whenever `result.success` is false, `should_send_notification`
returns true, regardless of the cache contents, leaves the store
unchanged and attempts no flush. -/
theorem C7_failure_passthrough (now : Int) (result : SearchResult)
    (search_settings : ScraperSettings) (cache : CacheStore)
    (h : result.success = false) :
    should_send_notification now result search_settings cache = .ok (true, cache, false) := by
  simp [should_send_notification, h]

/-- Witness for C7 at a concrete failed result and a populated store. -/
theorem C7_witness :
    should_send_notification 0 exFailResult exSettings exStore3 = .ok (true, exStore3, false) :=
  C7_failure_passthrough 0 exFailResult exSettings exStore3 rfl

/-- C8: on a successful result with both train lists empty,
`should_send_notification` returns false and leaves the store unchanged
(no entry is created or removed). -/
theorem C8_empty_short_circuit (now : Int) (result : SearchResult)
    (search_settings : ScraperSettings) (cache : CacheStore)
    (hs : result.success = true) (ha : result.available_trains = [])
    (hr : result.return_trains = []) :
    should_send_notification now result search_settings cache = .ok (false, cache, false) := by
  simp [should_send_notification, hs, ha, hr]

/-- Witness for C8 at a concrete empty result and a populated store. -/
theorem C8_witness :
    should_send_notification 0 exEmptyResult exSettings exStore3 = .ok (false, exStore3, false) :=
  C8_empty_short_circuit 0 exEmptyResult exSettings exStore3 rfl rfl rfl

/-- C9: cache construction is total; a missing file and an unreadable or
unparseable file both yield the empty store
`{"cache_version": "1.0", "entries": {}}`, and a parsed file is taken
as-is. -/
theorem C9_load_recovery :
    load_cache none = { cache_version := "1.0", entries := [] } ∧
    load_cache (some none) = { cache_version := "1.0", entries := [] } ∧
    ∀ data, load_cache (some (some data)) = data :=
  ⟨rfl, rfl, fun _ => rfl⟩

/-- C10: when the result has no return trains, the derived key does not
depend on the settings' `return_date`: two settings agreeing on
`depart_date` and `direction` produce the same key. -/
theorem C10_return_date_independence (result : SearchResult)
    (s1 s2 : ScraperSettings) (h : result.return_trains = [])
    (hdate : s1.depart_date = s2.depart_date) (hdir : s1.direction = s2.direction) :
    generate_cache_key result s1 = generate_cache_key result s2 := by
  simp [generate_cache_key, h, hdate, hdir]

/-- Witness for C10: a present and an absent `return_date` give the same
key for a one-way result. -/
theorem C10_witness :
    generate_cache_key exResult exSettings = generate_cache_key exResult exSettingsAlt :=
  C10_return_date_independence exResult exSettings exSettingsAlt rfl rfl rfl

end KTMBCache

namespace KTMBCache

/-- C1: on a successful result with at least one non-empty train list,
`should_send_notification` keys the store by
`generate_cache_key result search_settings` and: suppresses (returns
false, store untouched) when the entry at that key expires strictly
after `now`; removes exactly that entry and returns true when it does
not; returns true with the store untouched when the key is absent.
`expires_at` is compared as a timestamp, per the data-model shape of a
stored entry (the corrupt-entry case is settled under C3). -/
theorem C1_should_notify_cases (now : Int) (result : SearchResult)
    (search_settings : ScraperSettings) (cache : CacheStore)
    (hs : result.success = true)
    (hne : result.available_trains ≠ [] ∨ result.return_trains ≠ []) :
    (∀ e t, lookupEntry (generate_cache_key result search_settings) cache.entries = some e →
        e.expires_at = some (some t) →
        (now < t →
          should_send_notification now result search_settings cache =
            .ok (false, cache, false)) ∧
        (¬ now < t →
          should_send_notification now result search_settings cache =
            .ok (true,
              { cache with entries :=
                  removeEntry (generate_cache_key result search_settings) cache.entries },
              false))) ∧
    (lookupEntry (generate_cache_key result search_settings) cache.entries = none →
      should_send_notification now result search_settings cache = .ok (true, cache, false)) := by
  have hcond : ¬ (result.available_trains = [] ∧ result.return_trains = []) := by
    rcases hne with h | h
    · exact fun hc => h hc.1
    · exact fun hc => h hc.2
  refine ⟨fun e t hl he => ⟨fun hlt => ?_, fun hge => ?_⟩, fun hl => ?_⟩
  · simp [should_send_notification, hs, hcond, hl, parseExpiresAt, he, hlt]
  · simp [should_send_notification, hs, hcond, hl, parseExpiresAt, he, hge]
  · simp [should_send_notification, hs, hcond, hl]

/-- Witness for C1: a store whose entry under the derived key expired at
time 5 is evicted at time 10 and the notification goes out. -/
theorem C1_witness :
    should_send_notification 10 exResult exSettings exExpiredStore =
      .ok (true, { cache_version := "1.0", entries := [] }, false) := by
  have hl : lookupEntry (generate_cache_key exResult exSettings) exExpiredStore.entries
      = some exExpiredEntry := by decide
  have h := ((C1_should_notify_cases 10 exResult exSettings exExpiredStore rfl
      (Or.inl (by decide))).1 exExpiredEntry 5 hl rfl).2 (by decide)
  exact h.trans (by decide)

/-- C6: on a round-trip result (non-empty return list) the key's train
list is the outbound signatures followed by the return signatures; every
outbound signature is tagged with the search direction and every return
signature with the opposite direction, which differs from the search
direction. -/
theorem C6_direction_tagging (result : SearchResult) (search_settings : ScraperSettings)
    (h : result.return_trains ≠ []) :
    (∀ x ∈ (generate_cache_key result search_settings).trains.take
        result.available_trains.length,
      x.direction = some search_settings.direction.value) ∧
    (∀ x ∈ (generate_cache_key result search_settings).trains.drop
        result.available_trains.length,
      x.direction = some (get_opposite_direction search_settings.direction).value) ∧
    (generate_cache_key result search_settings).trains.length =
      result.available_trains.length + result.return_trains.length ∧
    get_opposite_direction search_settings.direction ≠ search_settings.direction := by
  have htr : (generate_cache_key result search_settings).trains =
      (sortTrains result.available_trains).map
        (mkSignature (some search_settings.direction.value))
      ++ (sortTrains result.return_trains).map
        (mkSignature (some (get_opposite_direction search_settings.direction).value)) := by
    simp [generate_cache_key, h]
  have hlen : ((sortTrains result.available_trains).map
      (mkSignature (some search_settings.direction.value))).length =
      result.available_trains.length := by
    simp [(sortTrains_perm result.available_trains).length_eq]
  refine ⟨?_, ?_, ?_, ?_⟩
  · intro x hx
    rw [htr, ← hlen, List.take_left] at hx
    rcases List.mem_map.mp hx with ⟨t, _, rfl⟩
    rfl
  · intro x hx
    rw [htr, ← hlen, List.drop_left] at hx
    rcases List.mem_map.mp hx with ⟨t, _, rfl⟩
    rfl
  · rw [htr]
    simp [(sortTrains_perm result.available_trains).length_eq,
      (sortTrains_perm result.return_trains).length_eq]
  · cases hd : search_settings.direction <;> decide

/-- Witness for C6: in the concrete round-trip search the outbound
signature keeps direction SG_TO_JB, the return signature gets JB_TO_SG,
and the signature list has one train from each list. -/
theorem C6_witness :
    (mkSignature (some "JB_TO_SG") exTrainB).direction =
      some (get_opposite_direction exSettingsRT.direction).value ∧
    (generate_cache_key exResultRT exSettingsRT).trains.length =
      exResultRT.available_trains.length + exResultRT.return_trains.length ∧
    get_opposite_direction exSettingsRT.direction ≠ exSettingsRT.direction := by
  have h := C6_direction_tagging exResultRT exSettingsRT (by decide)
  exact ⟨h.2.1 (mkSignature (some "JB_TO_SG") exTrainB) (by decide), h.2.2.1, h.2.2.2⟩

end KTMBCache

namespace KTMBCache

/-- Train sharing `exTrainA`'s train number but differing in its other
fields (the pathological input for order-independence). -/
def exDupB : Train :=
  { train_number := some "T1", departure_time := some "09:30", available_seats := some 3 }

/-- C2 counterexample: on a store with three entries of which two are
removed at time 10, `cleanup_expired` does not return the removal count
(the Python function is annotated `-> None` and returns nothing). -/
theorem C2_counterexample :
    (cleanup_expired 10 exStore3).1 ≠
      some (exStore3.entries.length - ((cleanup_expired 10 exStore3).2.1).entries.length) ∧
    exStore3.entries.length - ((cleanup_expired 10 exStore3).2.1).entries.length = 2 := by
  decide

/-- C2 (amended): `cleanup_expired(now)` keeps exactly the entries whose
`expires_at` parses to a strictly future time — it removes those with
`expires_at <= now` and those whose field is absent or unparseable — but
it returns no removal count (the Python return value is `None`). -/
theorem C2_cleanup_characterization (now : Int) (cache : CacheStore) :
    (cleanup_expired now cache).1 = none ∧
    ∀ p, p ∈ ((cleanup_expired now cache).2.1).entries ↔
      (p ∈ cache.entries ∧ ∃ t, p.2.expires_at = some (some t) ∧ now < t) := by
  refine ⟨rfl, fun p => ?_⟩
  show p ∈ cache.entries.filter (fun q => !entryExpired now q.2) ↔ _
  rw [List.mem_filter]
  constructor
  · rintro ⟨hm, hb⟩
    refine ⟨hm, ?_⟩
    have hx : entryExpired now p.2 = false := by simpa using hb
    rcases he : p.2.expires_at with _ | (_ | t)
    · simp [entryExpired, he] at hx
    · simp [entryExpired, he] at hx
    · simp only [entryExpired, he] at hx
      exact ⟨t, rfl, by simpa [not_le] using hx⟩
  · rintro ⟨hm, t, he, hlt⟩
    refine ⟨hm, ?_⟩
    have hn : ¬ t ≤ now := not_le.mpr hlt
    simp [entryExpired, he, hn]

/-- C3 counterexample: `should_send_notification` propagates a
`KeyError` when the entry stored under the derived key has no
`expires_at` field, instead of returning a boolean. -/
theorem C3_counterexample :
    should_send_notification 0 exResult exSettings exCorruptStore = .error .keyError := by
  decide

/-- C3 (amended): `cleanup_expired` never raises and treats corrupt
entries as expired — every entry surviving it has a parseable
`expires_at` — and `should_send_notification` returns a boolean whenever
every stored entry's `expires_at` parses; but (see the counterexample)
it propagates an exception when the entry under the derived key is
corrupt. -/
theorem C3_error_containment (now : Int) (result : SearchResult)
    (search_settings : ScraperSettings) (cache corrupt : CacheStore)
    (hwf : ∀ p ∈ cache.entries, entryParses p.2 = true) :
    (∀ p ∈ ((cleanup_expired now corrupt).2.1).entries, entryParses p.2 = true) ∧
    ∃ out, should_send_notification now result search_settings cache = .ok out := by
  constructor
  · intro p hp
    have hp' : p ∈ corrupt.entries.filter (fun q => !entryExpired now q.2) := hp
    have hx : entryExpired now p.2 = false := by
      simpa using (List.mem_filter.mp hp').2
    rcases he : p.2.expires_at with _ | (_ | t)
    · simp [entryExpired, he] at hx
    · simp [entryExpired, he] at hx
    · simp [entryParses, he]
  · by_cases hs : result.success = false
    · exact ⟨(true, cache, false), by simp [should_send_notification, hs]⟩
    · by_cases hemp : result.available_trains = [] ∧ result.return_trains = []
      · exact ⟨(false, cache, false), by simp [should_send_notification, hs, hemp]⟩
      · rcases hl : lookupEntry (generate_cache_key result search_settings) cache.entries
          with _ | e
        · exact ⟨(true, cache, false),
            by simp [should_send_notification, hs, hemp, hl]⟩
        · have hpar : entryParses e = true :=
            hwf _ (lookupEntry_mem _ _ _ hl)
          rcases he : e.expires_at with _ | (_ | t)
          · simp [entryParses, he] at hpar
          · simp [entryParses, he] at hpar
          · by_cases hlt : now < t
            · exact ⟨(false, cache, false),
                by simp [should_send_notification, hs, hemp, hl, parseExpiresAt, he, hlt]⟩
            · exact ⟨(true,
                  { cache with entries :=
                      removeEntry (generate_cache_key result search_settings) cache.entries },
                  false),
                by simp [should_send_notification, hs, hemp, hl, parseExpiresAt, he, hlt]⟩

/-- Witness for C3 at a partly corrupt store: the live entry survives
the cleanup scan with a parseable timestamp (the decision-call
hypothesis is discharged on a well-formed store). -/
theorem C3_witness : entryParses exLiveEntry = true := by
  have h := C3_error_containment 10 exResult exSettings exExpiredStore exStore3 (by decide)
  exact h.1 (exKey3, exLiveEntry) (by decide)

/-- Every normal return of `should_send_notification` reports that no
flush was attempted (the lazy eviction path does not call
`_save_cache`). -/
theorem no_save_on_decision (now : Int) (result : SearchResult)
    (search_settings : ScraperSettings) (cache : CacheStore)
    (out : Bool × CacheStore × Bool)
    (h : should_send_notification now result search_settings cache = .ok out) :
    out.2.2 = false := by
  unfold should_send_notification at h
  dsimp only at h
  repeat' split at h
  all_goals first
  | exact Except.noConfusion h
  | (injection h with h; subst h; rfl)

/-- C4 counterexample: the lazy eviction inside
`should_send_notification` changes the in-memory store (the expired
entry disappears) yet no flush of the store is attempted. -/
theorem C4_counterexample :
    should_send_notification 10 exResult exSettings exExpiredStore =
      .ok (true, { cache_version := "1.0", entries := [] }, false) ∧
    ({ cache_version := "1.0", entries := [] } : CacheStore) ≠ exExpiredStore := by
  decide

/-- C4 (amended): `add_to_cache` always attempts a flush before
returning, and `cleanup_expired` attempts one exactly when it changed
the store; but `should_send_notification` never attempts a flush, even
on the eviction path that mutates the store. -/
theorem C4_flush_discipline (now expiry_hours : Int) (result : SearchResult)
    (search_settings : ScraperSettings) (cache : CacheStore) :
    (add_to_cache now expiry_hours result search_settings cache).2 = true ∧
    ((cleanup_expired now cache).2.2 = true ↔ (cleanup_expired now cache).2.1 ≠ cache) ∧
    ∀ out, should_send_notification now result search_settings cache = .ok out →
      out.2.2 = false := by
  refine ⟨rfl, ?_, fun out h => no_save_on_decision now result search_settings cache out h⟩
  constructor
  · intro h hceq
    have hent : cache.entries.filter (fun p => !entryExpired now p.2) = cache.entries :=
      congrArg CacheStore.entries hceq
    have hall : ∀ p ∈ cache.entries, entryExpired now p.2 = false := by
      intro p hp
      simpa using List.filter_eq_self.mp hent p hp
    have hnil : cache.entries.filter (fun p => entryExpired now p.2) = [] := by
      apply List.filter_eq_nil_iff.mpr
      intro p hp
      simp [hall p hp]
    have h' : ¬ ((cache.entries.filter (fun p => entryExpired now p.2)).map (·.1) = []) := by
      simpa [cleanup_expired] using h
    exact h' (by rw [hnil]; rfl)
  · intro hne
    by_contra hflag
    have hmapnil : (cache.entries.filter (fun p => entryExpired now p.2)).map (·.1) = [] := by
      simpa [cleanup_expired] using hflag
    have hnil : cache.entries.filter (fun p => entryExpired now p.2) = [] :=
      List.map_eq_nil_iff.mp hmapnil
    have hall : ∀ p ∈ cache.entries, entryExpired now p.2 = false := by
      intro p hp
      simpa using List.filter_eq_nil_iff.mp hnil p hp
    apply hne
    have hself : cache.entries.filter (fun p => !entryExpired now p.2) = cache.entries := by
      apply List.filter_eq_self.mpr
      intro p hp
      simp [hall p hp]
    show ({ cache with
      entries := cache.entries.filter (fun p => !entryExpired now p.2) } : CacheStore) = cache
    rw [hself]

/-- Witness for C4: `add_to_cache` flushes on a concrete store, and the
concrete decision call reports no flush. -/
theorem C4_witness :
    (add_to_cache 0 24 exResult exSettings exStore3).2 = true ∧
    ((true, exStore3, false) : Bool × CacheStore × Bool).2.2 = false := by
  have h := C4_flush_discipline 0 24 exResult exSettings exStore3
  exact ⟨h.1, h.2.2 (true, exStore3, false) (by decide)⟩

/-- C5 counterexample: two trains sharing the train number "T1" defeat
order-independence — swapping them permutes `available_trains` but
changes the derived key, because the sort is stable and keyed only on
the train number. -/
theorem C5_counterexample :
    ([exDupB, exTrainA] : List Train).Perm [exTrainA, exDupB] ∧
    generate_cache_key ⟨true, [exTrainA, exDupB], []⟩ exSettings ≠
      generate_cache_key ⟨true, [exDupB, exTrainA], []⟩ exSettings := by
  exact ⟨List.Perm.swap _ _ _, by decide⟩

/-- C5 (amended): permuting `available_trains` or `return_trains` leaves
the derived key unchanged provided the train-number sort keys are
pairwise distinct within each permuted list. -/
theorem C5_key_perm_invariant (suc : Bool) (l1 l1' l2 l2' : List Train)
    (search_settings : ScraperSettings)
    (h1 : l1.Perm l1') (h2 : l2.Perm l2')
    (hd1 : distinctKeys l1) (hd2 : distinctKeys l2) :
    generate_cache_key ⟨suc, l1, l2⟩ search_settings =
      generate_cache_key ⟨suc, l1', l2'⟩ search_settings := by
  have e1 : sortTrains l1 = sortTrains l1' := sortTrains_eq_of_perm h1 hd1
  have e2 : sortTrains l2 = sortTrains l2' := sortTrains_eq_of_perm h2 hd2
  by_cases hl : l2 = []
  · have hl' : l2' = [] := by rw [hl] at h2; exact h2.symm.eq_nil
    simp [generate_cache_key, e1, hl, hl']
  · have hl' : ¬ l2' = [] := by
      intro hx
      exact hl (by rw [hx] at h2; exact h2.eq_nil)
    simp [generate_cache_key, e1, e2, hl, hl']

/-- Witness for C5: swapping two trains with distinct numbers T1, T2
leaves the key unchanged. -/
theorem C5_witness :
    generate_cache_key ⟨true, [exTrainB, exTrainA], []⟩ exSettings =
      generate_cache_key ⟨true, [exTrainA, exTrainB], []⟩ exSettings :=
  C5_key_perm_invariant true [exTrainB, exTrainA] [exTrainA, exTrainB] [] [] exSettings
    (List.Perm.swap _ _ _) List.Perm.nil
    (show List.Pairwise (fun a b => sortKey a ≠ sortKey b) [exTrainB, exTrainA] by decide)
    List.Pairwise.nil

end KTMBCache
